import Mathlib

/-!
Shallow embedding of `src/exp_tracker.py` (experiment-run tracker).

Paths, file names and environment values are modelled as lists of
characters (`Str`).  The filesystem is an explicit state: an association
list from file path to byte content, plus a list of existing directories.
The functions `setup`, `copy_script` and `to_slurm` mirror the Python
functions of the same names; `to_slurm` is modelled up to the point of
the `subprocess.run` call, i.e. as the construction of the command line
and of the optional child environment.
-/

/-- Paths, names and environment values: lists of characters. -/
abbrev Str := List Char

/-- Coerce a Lean string literal to the `Str` representation. -/
def str (s : String) : Str := s.data

/-- `dropLiteral lit l` drops the literal `lit` from the front of `l`,
returning the remainder, or `none` when `l` does not start with `lit`.
This models the anchored-at-start behaviour of Python `re.match`. -/
def dropLiteral : Str → Str → Option Str
  | [], rest => some rest
  | _ :: _, [] => none
  | p :: ps, c :: cs => if p = c then dropLiteral ps cs else none

/-- The decimal digit characters, as produced by Python `str`/`format`. -/
def digitChar (d : Nat) : Char :=
  if d = 0 then '0'
  else if d = 1 then '1'
  else if d = 2 then '2'
  else if d = 3 then '3'
  else if d = 4 then '4'
  else if d = 5 then '5'
  else if d = 6 then '6'
  else if d = 7 then '7'
  else if d = 8 then '8'
  else '9'

/-- Fuel-driven decimal rendering of a natural number (most significant
digit first); the fuel is always sufficient when called via `natChars`. -/
def natCharsGo : Nat → Nat → Str
  | 0, _ => []
  | fuel + 1, n =>
    if n < 10 then [digitChar n]
    else natCharsGo fuel (n / 10) ++ [digitChar (n % 10)]

/-- Decimal rendering of a natural number, as Python `str(n)` / `format`. -/
def natChars (n : Nat) : Str := natCharsGo (n + 1) n

/-- Zero-pad a rendered number to width 3, as Python format spec `{:03d}`. -/
def pad3 (l : Str) : Str := List.replicate (3 - l.length) '0' ++ l

/-- Decimal rendering of an integer, as Python f-string interpolation of
an `int` (`f"{args.gpus}"`, `f"{args.mem_per_cpu}G"`). -/
def intChars (i : Int) : Str :=
  if i < 0 then '-' :: natChars i.natAbs else natChars i.natAbs

/-- Parse a run of decimal digits as an integer, as Python `int` on the
matched digit group (leading zeros allowed). -/
def parseDigits (l : Str) : Nat :=
  l.foldl (fun acc c => acc * 10 + (c.toNat - 48)) 0

/-- The scan's match of one child name, from `pattern.match(f)` with
`pattern = re.compile(r"experiment_(\d+)")` (line 42): `re.match` anchors
at the start only, so a name matches exactly when it begins with the
literal `experiment_` followed by at least one decimal digit; the value
is the maximal digit run after the literal, parsed as an integer. -/
def matchExp (name : Str) : Option Nat :=
  match dropLiteral (str "experiment_") name with
  | none => none
  | some rest =>
    let ds := rest.takeWhile Char.isDigit
    if ds.isEmpty then none else some (parseDigits ds)

/-- The identifiers of all matched child names (line 45's `matches`,
already parsed). -/
def matchedIds (names : List Str) : List Nat := names.filterMap matchExp

/-- The Identifier Allocator (lines 43-49): `1` when no child matches,
otherwise the maximum matched identifier plus one. -/
def nextExpId (names : List Str) : Nat :=
  let ids := matchedIds names
  if ids.isEmpty then 1 else ids.foldl max 0 + 1

/-- The run-slot name template `"experiment_{:03d}"` (line 41). -/
def expName (n : Nat) : Str := str "experiment_" ++ pad3 (natChars n)

/-- The run-slot directory path `Path(log_dir) / exp_template.format(exp_id)`
(line 52). -/
def expDirStr (root : Str) (n : Nat) : Str := root ++ str "/" ++ expName n

/-- The suffix of a name/path after the last occurrence of `c` (the whole
list when `c` does not occur): Python `s.split(sep=c)[-1]`. -/
def afterLastChar (c : Char) (l : Str) : Str :=
  (l.reverse.takeWhile (fun x => x ≠ c)).reverse

/-- The part of a name/path strictly before the last occurrence of `c`
(empty when `c` does not occur). -/
def beforeLastChar (c : Char) (l : Str) : Str :=
  ((l.reverse.dropWhile (fun x => x ≠ c)).drop 1).reverse

/-- `Path(file).name`: the component after the last path separator. -/
def baseName (file : Str) : Str := afterLastChar '/' file

/-- The identifier string that `copy_script` and `to_slurm` read back out
of the run directory path: `str(exp_dir).split(sep="_")[-1]` (lines 64 and 85). -/
def extractId (s : Str) : Str := afterLastChar '_' s

/-- The snapshot file name built by `copy_script` (lines 62-65):
`base = Path(file).name[:-3]` (chop the last three characters), then
`f"{base}_{exp_id}.py"` with `exp_id = str(exp_dir).split(sep="_")[-1]`. -/
def snapshotName (file : Str) (exp_dir : Str) : Str :=
  let base := (baseName file).take ((baseName file).length - 3)
  base ++ str "_" ++ extractId exp_dir ++ str ".py"

/-- Errors surfaced by the embedded operations, named after the spec's
error taxonomy; `validation` and `alreadyExists` model the Python
`assert` sites of `setup`, `fileExists` the `os.mkdir` failure on an
existing path, `ioFailure` a failing copy source. -/
inductive Err where
  | validation
  | alreadyExists
  | fileExists
  | ioFailure
deriving DecidableEq, Repr

/-- Filesystem state: regular files (path with byte content, first
binding wins) and directories. The namespace is flat; `os.listdir` is
derived from the path lists. -/
structure FS where
  files : List (Str × List Nat)
  dirs : List Str
deriving DecidableEq, Repr

/-- Content of the regular file at `p`, when it exists (`open`/read). -/
def lookupFile (fs : FS) (p : Str) : Option (List Nat) :=
  (fs.files.find? (fun q => q.1 == p)).map (fun q => q.2)

/-- `os.path.isfile`. -/
def isFile (fs : FS) (p : Str) : Bool := (lookupFile fs p).isSome

/-- `os.path.isdir`. -/
def isDir (fs : FS) (p : Str) : Bool := fs.dirs.contains p

/-- `os.path.exists`: a regular file or a directory at `p`. -/
def pathExists (fs : FS) (p : Str) : Bool := isFile fs p || isDir fs p

/-- The name of `p` as an immediate child of directory `d`: the remainder
of `p` after `d ++ "/"`, provided it is nonempty and has no further
separator. -/
def childNameOf (d : Str) (p : Str) : Option Str :=
  match dropLiteral (d ++ str "/") p with
  | none => none
  | some rest => if rest ≠ [] ∧ ¬ rest.contains '/' then some rest else none

/-- `os.listdir(d)`: names of the immediate children of `d`, files and
directories alike (line 43). -/
def listdir (fs : FS) (d : Str) : List Str :=
  (fs.files.map (fun q => q.1) ++ fs.dirs).filterMap (childNameOf d)

/-- Create a new file binding (also models `shutil.copy`'s write, which
overwrites an existing destination). -/
def writeFile (fs : FS) (p : Str) (content : List Nat) : FS :=
  { fs with files := (p, content) :: fs.files }

/-- Remove the regular file at `p` (`os.remove`). -/
def deleteFile (fs : FS) (p : Str) : FS :=
  { fs with files := fs.files.filter (fun q => !(q.1 == p)) }

/-- The parsed command-line arguments that the core functions consume
(`args.file`, `args.log_dir`, `args.mem_per_cpu`, `args.gpus`,
`args.local`; the free-text message does not reach the core). `isLocal`
renders the Python attribute `local`, which is a Lean keyword. -/
structure Args where
  file : Str
  log_dir : Str
  mem_per_cpu : Int
  gpus : Int
  isLocal : Bool
deriving DecidableEq, Repr

/-- `args.file.endswith(".py")` (line 32). -/
def endsWithPy (l : Str) : Bool := l.reverse.take 3 == (str ".py").reverse

/-- The Run Directory Initializer step (lines 53-54):
`assert not os.path.exists(exp_dir)` — surfaced as `AlreadyExists` per
the spec's taxonomy — then `os.mkdir(exp_dir)`. -/
def createSlot (fs : FS) (exp_dir : Str) : FS × Except Err Str :=
  if pathExists fs exp_dir then (fs, Except.error Err.alreadyExists)
  else ({ fs with dirs := exp_dir :: fs.dirs }, Except.ok exp_dir)

/-- `setup(args)` (lines 27-55): validation asserts, lazily create the
tracking root, scan it for the next identifier, create the run-slot
directory and return its path. The state component of the result is the
filesystem as of return or abort. -/
def setup (a : Args) (fs : FS) : FS × Except Err Str :=
  if isFile fs a.file = false then (fs, Except.error Err.validation)
  else if endsWithPy a.file = false then (fs, Except.error Err.validation)
  else if a.mem_per_cpu ≤ 0 then (fs, Except.error Err.validation)
  else if a.gpus < 0 then (fs, Except.error Err.validation)
  else if pathExists fs a.log_dir = true ∧ isDir fs a.log_dir = false then
    -- `os.mkdir(args.log_dir)` raises FileExistsError: log_dir is a file
    (fs, Except.error Err.fileExists)
  else
    let fs1 := if isDir fs a.log_dir then fs else { fs with dirs := a.log_dir :: fs.dirs }
    let exp_id := nextExpId (listdir fs1 a.log_dir)
    createSlot fs1 (expDirStr a.log_dir exp_id)

/-- `copy_script(file, exp_dir)` (lines 58-70): derive the snapshot path
and copy the source's byte content there. -/
def copy_script (fs : FS) (file : Str) (exp_dir : Str) : FS × Except Err Str :=
  let copy_path := exp_dir ++ str "/" ++ snapshotName file exp_dir
  match lookupFile fs file with
  | none => (fs, Except.error Err.ioFailure)
  | some content => (writeFile fs copy_path content, Except.ok copy_path)

/-- A process environment: assignments, later (earlier-in-list) bindings
shadowing older ones, looked up by `getVar`. -/
abbrev Env := List (Str × Str)

/-- Look a variable up in an environment. -/
def getVar (e : Env) (k : Str) : Option Str :=
  (e.find? (fun q => q.1 == k)).map (fun q => q.2)

/-- `env[k] = v`: Python dict assignment, modelled by shadowing. -/
def setVar (e : Env) (k v : Str) : Env := (k, v) :: e

/-- The `--job-name=` argument: `f"--job-name=jorb_{str(exp_dir).split(sep='_')[-1]}"`
(line 85). -/
def jobNameArg (exp_dir : Str) : Str := str "--job-name=jorb_" ++ extractId exp_dir

/-- The `--output=` argument: `f"--output={str(exp_dir / 'slurm_log.out')}"`
(line 87). -/
def outputArg (exp_dir : Str) : Str := str "--output=" ++ exp_dir ++ str "/slurm_log.out"

/-- The `--export=` argument (line 95). -/
def exportArg (exp_dir : Str) : Str :=
  str "--export=ALL,LOG_DIR=" ++ exp_dir ++ str ",LOG_FILE=" ++ exp_dir ++ str "/exp_record.log"

/-- The `LOG_DIR` value `str(exp_dir)` (line 80). -/
def logDirVal (exp_dir : Str) : Str := exp_dir

/-- The `LOG_FILE` value `str(exp_dir / "exp_record.log")` (line 80). -/
def logFileVal (exp_dir : Str) : Str := exp_dir ++ str "/exp_record.log"

/-- The canonical run-slot name form, as the claims word it: the literal
`experiment_` followed by one or more decimal digits and nothing else. -/
def canonicalSlotName (name : Str) : Bool :=
  match dropLiteral (str "experiment_") name with
  | none => false
  | some rest => !rest.isEmpty && rest.all Char.isDigit

/-- Whether a name begins with the literal `experiment_` followed by at
least one decimal digit — exactly the names `re.match` accepts. -/
def beginsWithSlotForm (name : Str) : Bool :=
  match dropLiteral (str "experiment_") name with
  | none => false
  | some [] => false
  | some (c :: _) => c.isDigit

/-- Modelled from the spec's words for comparison with `snapshotName`
(spec 4.3): the snapshot is named
`<original-base-name-without-extension>_<identifier>.<original-extension>`,
where base name, stem and extension split at the last path separator and
the last dot of the base name. -/
def specSnapshotName (file : Str) (exp_dir : Str) : Str :=
  beforeLastChar '.' (baseName file) ++ str "_" ++ extractId exp_dir
    ++ str "." ++ afterLastChar '.' (baseName file)

/-- The subprocess invocation that `to_slurm` hands to `subprocess.run`
(line 109): the argument vector and the `env=` parameter (`none` renders
Python `env=None`, i.e. inherit the parent environment unmodified). -/
structure SlurmCall where
  argv : List Str
  env : Option Env
deriving DecidableEq, Repr

/-- `to_slurm(args, exp_dir, run_script, script_args)` (lines 73-109),
modelled up to the `subprocess.run` call: build either the `sbatch`
command line (scheduled mode, `env=None`) or the `python3` command line
(local mode, inherited environment plus the `LOG_DIR`/`LOG_FILE`
overrides). `cur_env` is `os.environ` at call time. -/
def to_slurm (a : Args) (exp_dir : Str) (run_script : Str)
    (script_args : List Str) (cur_env : Env) : SlurmCall :=
  if a.isLocal = false then
    { argv := [str "sbatch",
               jobNameArg exp_dir,
               outputArg exp_dir,
               str "--gpus=" ++ intChars a.gpus,
               str "--mem-per-cpu=" ++ intChars a.mem_per_cpu ++ str "G",
               str "--partition=unkillable",
               exportArg exp_dir]
              ++ [run_script] ++ script_args,
      env := none }
  else
    { argv := [str "python3"] ++ [run_script] ++ script_args,
      env := some (setVar (setVar cur_env (str "LOG_DIR") (logDirVal exp_dir))
                          (str "LOG_FILE") (logFileVal exp_dir)) }

deriving instance DecidableEq for Except

/-! ### List helper lemmas -/

theorem takeWhile_append_of_all (p : Char → Bool) (l₁ l₂ : Str)
    (h : ∀ x ∈ l₁, p x = true) :
    (l₁ ++ l₂).takeWhile p = l₁ ++ l₂.takeWhile p := by
  induction l₁ with
  | nil => simp
  | cons a l ih =>
    have ha : p a = true := h a (List.mem_cons_self a l)
    simp only [List.cons_append, List.takeWhile_cons, ha, if_true]
    rw [ih (fun x hx => h x (List.mem_cons_of_mem a hx))]

theorem dropWhile_append_of_all (p : Char → Bool) (l₁ l₂ : Str)
    (h : ∀ x ∈ l₁, p x = true) :
    (l₁ ++ l₂).dropWhile p = l₂.dropWhile p := by
  induction l₁ with
  | nil => simp
  | cons a l ih =>
    have ha : p a = true := h a (List.mem_cons_self a l)
    simp only [List.cons_append, List.dropWhile_cons, ha, if_true]
    exact ih (fun x hx => h x (List.mem_cons_of_mem a hx))

theorem afterLastChar_append (c : Char) (s t : Str) (h : c ∉ t) :
    afterLastChar c (s ++ c :: t) = t := by
  unfold afterLastChar
  rw [List.reverse_append, List.reverse_cons, List.append_assoc]
  rw [takeWhile_append_of_all _ _ _ (fun x hx => by
    simp only [decide_eq_true_eq]
    exact fun hxc => h (hxc ▸ List.mem_reverse.mp hx))]
  simp

theorem afterLastChar_extend (c : Char) (u t : Str) (h : c ∉ t) :
    afterLastChar c (u ++ t) = afterLastChar c u ++ t := by
  unfold afterLastChar
  rw [List.reverse_append]
  rw [takeWhile_append_of_all _ _ _ (fun x hx => by
    simp only [decide_eq_true_eq]
    exact fun hxc => h (hxc ▸ List.mem_reverse.mp hx))]
  simp

theorem afterLastChar_not_mem (c : Char) (l : Str) (h : c ∉ l) :
    afterLastChar c l = l := by
  unfold afterLastChar
  rw [List.takeWhile_eq_self_iff.mpr (fun x hx => by
    simp only [decide_eq_true_eq]
    exact fun hxc => h (hxc ▸ List.mem_reverse.mp hx))]
  simp

theorem beforeLastChar_append (c : Char) (s t : Str) (h : c ∉ t) :
    beforeLastChar c (s ++ c :: t) = s := by
  unfold beforeLastChar
  rw [List.reverse_append, List.reverse_cons, List.append_assoc]
  rw [dropWhile_append_of_all _ _ _ (fun x hx => by
    simp only [decide_eq_true_eq]
    exact fun hxc => h (hxc ▸ List.mem_reverse.mp hx))]
  simp [List.dropWhile_cons]

/-! ### Digit-rendering lemmas -/

theorem digitChar_isDigit (d : Nat) : (digitChar d).isDigit = true := by
  unfold digitChar
  repeat' split
  all_goals decide

theorem mem_natCharsGo (fuel n : Nat) (c : Char) (h : c ∈ natCharsGo fuel n) :
    ∃ d, c = digitChar d := by
  induction fuel generalizing n with
  | zero => simp [natCharsGo] at h
  | succ fuel ih =>
    unfold natCharsGo at h
    split at h
    · rcases List.mem_singleton.mp h with rfl
      exact ⟨n, rfl⟩
    · rcases List.mem_append.mp h with h' | h'
      · exact ih _ h'
      · rcases List.mem_singleton.mp h' with rfl
        exact ⟨n % 10, rfl⟩

theorem isDigit_of_mem_natChars (n : Nat) (c : Char) (h : c ∈ natChars n) :
    c.isDigit = true := by
  rcases mem_natCharsGo _ _ _ h with ⟨d, rfl⟩
  exact digitChar_isDigit d

theorem isDigit_of_mem_pad3_natChars (n : Nat) (c : Char)
    (h : c ∈ pad3 (natChars n)) : c.isDigit = true := by
  rcases List.mem_append.mp h with h' | h'
  · rcases List.eq_of_mem_replicate h' with rfl
    decide
  · exact isDigit_of_mem_natChars n c h'

theorem underscore_not_mem_pad3_natChars (n : Nat) : '_' ∉ pad3 (natChars n) := by
  intro h
  have := isDigit_of_mem_pad3_natChars n '_' h
  simp [Char.isDigit] at this

/-- The key identifier-threading fact: reading the run directory path
back with `split(sep="_")[-1]` recovers exactly the zero-padded rendering
of the allocated identifier, for every tracking root path. -/
theorem extractId_expDirStr (root : Str) (n : Nat) :
    extractId (expDirStr root n) = pad3 (natChars n) := by
  have hsplit : expDirStr root n
      = (root ++ str "/" ++ str "experiment") ++ '_' :: pad3 (natChars n) := by
    show root ++ str "/" ++ (str "experiment_" ++ pad3 (natChars n)) = _
    have : str "experiment_" = str "experiment" ++ ['_'] := by decide
    rw [this]
    simp [List.append_assoc]
  rw [hsplit]
  exact afterLastChar_append _ _ _ (underscore_not_mem_pad3_natChars n)

/-! ### Maximum-of-a-list lemmas (for the allocator's `max(...) + 1`) -/

theorem le_foldl_max_init (l : List Nat) (a : Nat) : a ≤ l.foldl max a := by
  induction l generalizing a with
  | nil => simp
  | cons x xs ih =>
    simp only [List.foldl_cons]
    exact le_trans (Nat.le_max_left a x) (ih (max a x))

theorem le_foldl_max_of_mem (l : List Nat) (a b : Nat) (h : b ∈ l) :
    b ≤ l.foldl max a := by
  induction l generalizing a with
  | nil => simp at h
  | cons x xs ih =>
    simp only [List.foldl_cons]
    rcases List.mem_cons.mp h with rfl | h'
    · exact le_trans (Nat.le_max_right a b) (le_foldl_max_init xs (max a b))
    · exact ih (max a x) h'

theorem foldl_max_eq_init_or_mem (l : List Nat) (a : Nat) :
    l.foldl max a = a ∨ l.foldl max a ∈ l := by
  induction l generalizing a with
  | nil => exact Or.inl rfl
  | cons x xs ih =>
    simp only [List.foldl_cons]
    rcases ih (max a x) with h | h
    · rw [h]
      rcases Nat.le_total a x with hax | hxa
      · rw [Nat.max_eq_right hax]
        exact Or.inr (List.mem_cons_self x xs)
      · rw [Nat.max_eq_left hxa]
        exact Or.inl rfl
    · exact Or.inr (List.mem_cons_of_mem x h)

/-! ### Claim theorems -/

/-- Claim C1: for every tracking-root directory listing, the Identifier
Allocator returns one more than the maximum of the integers parsed from
the child names matched by the run-slot pattern (every matched identifier
is strictly below the result, and the result minus one is itself a
matched identifier when any match exists), and returns `1` when no child
name matches; in particular a root containing slots `{1,3,4}` yields `5`,
not `2` — no gap-filling. -/
theorem c1_allocator_max_plus_one (names : List Str) :
    (matchedIds names = [] → nextExpId names = 1)
    ∧ (∀ m ∈ matchedIds names, m < nextExpId names)
    ∧ (matchedIds names ≠ [] → nextExpId names - 1 ∈ matchedIds names)
    ∧ nextExpId [str "experiment_001", str "experiment_003", str "experiment_004"] = 5
    ∧ nextExpId [str "experiment_001", str "experiment_003", str "experiment_004"] ≠ 2
    ∧ nextExpId [] = 1 := by
  refine ⟨?_, ?_, ?_, by decide, by decide, by decide⟩
  · intro h
    simp [nextExpId, h]
  · intro m hm
    have hne : (matchedIds names).isEmpty = false := by
      cases h : matchedIds names with
      | nil => rw [h] at hm; simp at hm
      | cons x xs => simp [h]
    simp only [nextExpId, hne, if_false, Bool.false_eq_true]
    exact Nat.lt_succ_of_le (le_foldl_max_of_mem _ 0 m hm)
  · intro h
    have hne : (matchedIds names).isEmpty = false := by
      cases hh : matchedIds names with
      | nil => exact absurd hh h
      | cons x xs => simp [hh]
    simp only [nextExpId, hne, if_false, Bool.false_eq_true, Nat.add_sub_cancel]
    rcases foldl_max_eq_init_or_mem (matchedIds names) 0 with h0 | hmem
    · cases hh : matchedIds names with
      | nil => exact absurd hh h
      | cons x xs =>
        have hx : x ≤ 0 := by
          have hle := le_foldl_max_of_mem (matchedIds names) 0 x
            (hh ▸ List.mem_cons_self x xs)
          rw [h0] at hle
          exact hle
        rw [hh] at h0
        rw [h0, ← Nat.le_zero.mp hx]
        exact List.mem_cons_self x xs
    · exact hmem

/-- Claim C1 witness: the theorem instantiated at the `{1,3,4}` root. -/
theorem c1_allocator_max_plus_one_witness :
    (matchedIds [str "experiment_001", str "experiment_003", str "experiment_004"] ≠ []
      → nextExpId [str "experiment_001", str "experiment_003", str "experiment_004"] - 1
          ∈ matchedIds [str "experiment_001", str "experiment_003", str "experiment_004"])
    ∧ matchedIds [str "experiment_001", str "experiment_003", str "experiment_004"] ≠ [] :=
  ⟨(c1_allocator_max_plus_one _).2.2.1, by decide⟩

theorem matchExp_eq_none_of_not_slotForm (name : Str)
    (h : beginsWithSlotForm name = false) : matchExp name = none := by
  unfold beginsWithSlotForm at h
  unfold matchExp
  cases hd : dropLiteral (str "experiment_") name with
  | none => rfl
  | some rest =>
    rw [hd] at h
    cases rest with
    | nil => simp
    | cons c cs =>
      have hc : c.isDigit = false := h
      simp [List.takeWhile_cons, hc]

/-- Claim C4 counterexample: the child name `experiment_12abc` does not
match the canonical run-slot pattern (literal, digits, and nothing else),
yet its presence changes the computed identifier: a root holding only
that name yields `13`, while an empty root yields `1`. `re.match` anchors
at the start only, so a digit run followed by a non-numeric suffix still
contributes its parsed value. -/
theorem c4_counterexample :
    canonicalSlotName (str "experiment_12abc") = false
    ∧ nextExpId [str "experiment_12abc"] = 13
    ∧ nextExpId [] = 1 := by
  refine ⟨by decide, by decide, by decide⟩

/-- Claim C4 (amended): every child name that does not begin with the
literal `experiment_` followed by a decimal digit never influences the
computed identifier (the total scan simply ignores it, so its presence
never makes the scan crash); in particular `experiment_abc` and
`notes.txt` are ignored. Names that do begin with the literal and a
digit contribute their leading digit run even when a non-numeric suffix
follows. -/
theorem c4_nonmatching_names_ignored (name : Str) (names : List Str)
    (h : beginsWithSlotForm name = false) :
    matchedIds (name :: names) = matchedIds names
    ∧ nextExpId (name :: names) = nextExpId names
    ∧ beginsWithSlotForm (str "experiment_abc") = false
    ∧ beginsWithSlotForm (str "notes.txt") = false := by
  have hm : matchExp name = none := matchExp_eq_none_of_not_slotForm name h
  refine ⟨?_, ?_, by decide, by decide⟩
  · simp [matchedIds, List.filterMap_cons, hm]
  · simp [nextExpId, matchedIds, List.filterMap_cons, hm]

/-- Claim C4 witness: the amended theorem at `notes.txt` over a root
holding one valid slot. -/
theorem c4_nonmatching_names_ignored_witness :
    beginsWithSlotForm (str "notes.txt") = false
    ∧ (matchedIds [str "notes.txt", str "experiment_003"]
        = matchedIds [str "experiment_003"]
      ∧ nextExpId [str "notes.txt", str "experiment_003"]
        = nextExpId [str "experiment_003"]
      ∧ beginsWithSlotForm (str "experiment_abc") = false
      ∧ beginsWithSlotForm (str "notes.txt") = false) :=
  ⟨by decide, c4_nonmatching_names_ignored (str "notes.txt") [str "experiment_003"] (by decide)⟩

/-- Claim C2: when the run-slot directory path already exists in the
filesystem state at creation time, the Run Directory Initializer step
(the `assert not os.path.exists` guard before `os.mkdir`, lines 53-54)
fails with `AlreadyExists` and returns the filesystem state unchanged:
it never silently merges or overwrites, and performs no mutation. -/
theorem c2_create_slot_already_exists (fs : FS) (d : Str)
    (h : pathExists fs d = true) :
    createSlot fs d = (fs, Except.error Err.alreadyExists) := by
  simp [createSlot, h]

/-- Claim C2 witness: a root already holding `root/experiment_001`. -/
theorem c2_create_slot_already_exists_witness :
    pathExists { files := [], dirs := [str "root/experiment_001"] }
        (str "root/experiment_001") = true
    ∧ createSlot { files := [], dirs := [str "root/experiment_001"] }
          (str "root/experiment_001")
        = ({ files := [], dirs := [str "root/experiment_001"] },
           Except.error Err.alreadyExists) :=
  ⟨by decide, c2_create_slot_already_exists _ _ (by decide)⟩

/-- Claim C5: whenever the script path names no existing file, or the
script lacks the `.py` extension, or the memory-per-unit is non-positive,
or the GPU count is negative, `setup` aborts with a validation error and
the filesystem state it returns is exactly the input state: the four
validation asserts (lines 31-34) precede every filesystem mutation, so no
directory is created and nothing is copied. -/
theorem c5_validation_precedes_mutation (a : Args) (fs : FS)
    (h : isFile fs a.file = false ∨ endsWithPy a.file = false
      ∨ a.mem_per_cpu ≤ 0 ∨ a.gpus < 0) :
    setup a fs = (fs, Except.error Err.validation) := by
  by_cases h1 : isFile fs a.file = false
  · simp [setup, h1]
  · by_cases h2 : endsWithPy a.file = false
    · simp [setup, h1, h2]
    · by_cases h3 : a.mem_per_cpu ≤ 0
      · simp [setup, h1, h2, h3]
      · by_cases h4 : a.gpus < 0
        · simp [setup, h1, h2, h3, h4]
        · exfalso
          rcases h with h | h | h | h
          · exact h1 h
          · exact h2 h
          · exact h3 h
          · exact h4 h

/-- Claim C5 witness: a missing script path against an empty filesystem. -/
theorem c5_validation_precedes_mutation_witness :
    (isFile { files := [], dirs := [] }
        (str "missing.py") = false
      ∨ endsWithPy (str "missing.py") = false
      ∨ (8 : Int) ≤ 0 ∨ (0 : Int) < 0)
    ∧ setup { file := str "missing.py", log_dir := str "root",
              mem_per_cpu := 8, gpus := 0, isLocal := true }
          { files := [], dirs := [] }
        = ({ files := [], dirs := [] }, Except.error Err.validation) :=
  ⟨Or.inl (by decide),
   c5_validation_precedes_mutation _ _ (Or.inl (by decide))⟩

theorem createSlot_ok (fs1 fs' : FS) (e d : Str)
    (h : createSlot fs1 e = (fs', Except.ok d)) : d = e := by
  unfold createSlot at h
  split at h
  · simp at h
  · simp only [Prod.mk.injEq, Except.ok.injEq] at h
    exact h.2.symm

theorem setup_ok_dir (a : Args) (fs fs' : FS) (d : Str)
    (h : setup a fs = (fs', Except.ok d)) :
    ∃ n, d = expDirStr a.log_dir n := by
  unfold setup at h
  split at h
  · simp at h
  · split at h
    · simp at h
    · split at h
      · simp at h
      · split at h
        · simp at h
        · split at h
          · simp at h
          · exact ⟨_, createSlot_ok _ _ _ _ h⟩

/-- Claim C3: every successful invocation of `setup` returns a run
directory for a single identifier `n`, and that one identifier's
zero-padded rendering is what reappears in every artifact: it is the
digit group of the run directory name, it is the identifier embedded in
the snapshot filename built by `copy_script`, it is the identifier in the
scheduler `--job-name` argument, the scheduler `--output` path lies
inside the run directory, and the `LOG_DIR` / `LOG_FILE` environment
values are the run directory path and its record-file path. -/
theorem c3_identifier_threaded (a : Args) (fs fs' : FS) (d file : Str)
    (h : setup a fs = (fs', Except.ok d)) :
    ∃ n, d = expDirStr a.log_dir n
      ∧ extractId d = pad3 (natChars n)
      ∧ snapshotName file d
          = (baseName file).take ((baseName file).length - 3)
            ++ (str "_" ++ (pad3 (natChars n) ++ str ".py"))
      ∧ jobNameArg d = str "--job-name=jorb_" ++ pad3 (natChars n)
      ∧ outputArg d = str "--output=" ++ (d ++ str "/slurm_log.out")
      ∧ logDirVal d = d
      ∧ logFileVal d = d ++ str "/exp_record.log" := by
  obtain ⟨n, rfl⟩ := setup_ok_dir a fs fs' d h
  refine ⟨n, rfl, extractId_expDirStr _ _, ?_, ?_, rfl, rfl, rfl⟩
  · simp [snapshotName, extractId_expDirStr]
  · simp [jobNameArg, extractId_expDirStr]

/-- Claim C3 witness: a fresh root, script `s.py`, allocating slot 1. -/
theorem c3_identifier_threaded_witness :
    setup { file := str "s.py", log_dir := str "root",
            mem_per_cpu := 8, gpus := 0, isLocal := true }
        { files := [(str "s.py", [])], dirs := [] }
      = ({ files := [(str "s.py", [])],
           dirs := [str "root/experiment_001", str "root"] },
         Except.ok (str "root/experiment_001"))
    ∧ ∃ n, str "root/experiment_001" = expDirStr (str "root") n
      ∧ extractId (str "root/experiment_001") = pad3 (natChars n)
      ∧ snapshotName (str "s.py") (str "root/experiment_001")
          = (baseName (str "s.py")).take ((baseName (str "s.py")).length - 3)
            ++ (str "_" ++ (pad3 (natChars n) ++ str ".py"))
      ∧ jobNameArg (str "root/experiment_001")
          = str "--job-name=jorb_" ++ pad3 (natChars n)
      ∧ outputArg (str "root/experiment_001")
          = str "--output=" ++ (str "root/experiment_001" ++ str "/slurm_log.out")
      ∧ logDirVal (str "root/experiment_001") = str "root/experiment_001"
      ∧ logFileVal (str "root/experiment_001")
          = str "root/experiment_001" ++ str "/exp_record.log" :=
  ⟨by decide,
   c3_identifier_threaded
     { file := str "s.py", log_dir := str "root",
       mem_per_cpu := 8, gpus := 0, isLocal := true }
     { files := [(str "s.py", [])], dirs := [] }
     { files := [(str "s.py", [])],
       dirs := [str "root/experiment_001", str "root"] }
     (str "root/experiment_001") (str "s.py") (by decide)⟩

/-- Claim C6 counterexample: for the source path `notes.txt` and run
directory `root/experiment_007`, `copy_script` names the snapshot
`notes._007.py` — the code chops the last three characters of the base
name regardless of the real extension and always appends `.py` — while
the claimed scheme
`<base-name-without-extension>_<identifier>.<original-extension>` gives
`notes_007.txt`; the claim's universal statement over every source path
fails. -/
theorem c6_counterexample :
    snapshotName (str "notes.txt") (expDirStr (str "root") 7)
      = str "notes._007.py"
    ∧ specSnapshotName (str "notes.txt") (expDirStr (str "root") 7)
      = str "notes_007.txt"
    ∧ snapshotName (str "notes.txt") (expDirStr (str "root") 7)
      ≠ specSnapshotName (str "notes.txt") (expDirStr (str "root") 7) := by
  refine ⟨by decide, by decide, by decide⟩

/-- Claim C6 (amended): for every source script path with the `.py`
extension — the only paths that reach `copy_script`, since `setup`
validates the extension first — the snapshot is named
`<base-name-without-extension>_<identifier>.py`: the code's name agrees
with the spec's scheme, embedding the allocated identifier and the
source's base name and preserving the (`.py`) extension. -/
theorem c6_snapshot_name_py (u root : Str) (n : Nat) :
    snapshotName (u ++ str ".py") (expDirStr root n)
      = specSnapshotName (u ++ str ".py") (expDirStr root n)
    ∧ snapshotName (u ++ str ".py") (expDirStr root n)
      = beforeLastChar '.' (baseName (u ++ str ".py"))
        ++ (str "_" ++ (pad3 (natChars n) ++ str ".py")) := by
  have hpy : str ".py" = '.' :: ['p', 'y'] := by decide
  have hb : baseName (u ++ str ".py")
      = afterLastChar '/' u ++ ('.' :: ['p', 'y']) := by
    unfold baseName
    rw [hpy]
    exact afterLastChar_extend '/' u _ (by decide)
  have hstem : beforeLastChar '.' (baseName (u ++ str ".py"))
      = afterLastChar '/' u := by
    rw [hb]
    exact beforeLastChar_append '.' _ _ (by decide)
  have hext : afterLastChar '.' (baseName (u ++ str ".py")) = ['p', 'y'] := by
    rw [hb]
    exact afterLastChar_append '.' _ _ (by decide)
  have htake : (baseName (u ++ str ".py")).take
      ((baseName (u ++ str ".py")).length - 3) = afterLastChar '/' u := by
    rw [hb]
    have hlen : (afterLastChar '/' u ++ ('.' :: ['p', 'y'])).length - 3
        = (afterLastChar '/' u).length := by
      simp
    rw [hlen]
    exact List.take_left _ _
  refine ⟨?_, ?_⟩
  · unfold snapshotName specSnapshotName
    rw [htake, hstem, hext, extractId_expDirStr]
    simp only [hpy, List.append_assoc]
    rw [show str "." ++ (['p', 'y'] : Str) = ['.', 'p', 'y'] from by decide]
  · unfold snapshotName
    rw [htake, hstem, extractId_expDirStr]
    simp

theorem find?_filter_ne (l : List (Str × List Nat)) (p q : Str) (hpq : p ≠ q) :
    (l.filter (fun r => !(r.1 == q))).find? (fun r => r.1 == p)
      = l.find? (fun r => r.1 == p) := by
  induction l with
  | nil => rfl
  | cons r rs ih =>
    by_cases hr : r.1 = q
    · have h1 : (!(r.1 == q)) = false := by simp [hr]
      rw [List.filter_cons, h1]
      simp only [Bool.false_eq_true, if_false]
      rw [ih, List.find?_cons_of_neg _ (by
        simp only [beq_iff_eq, hr]
        exact fun he => hpq he.symm)]
    · have h1 : (!(r.1 == q)) = true := by simp [hr]
      rw [List.filter_cons, h1]
      simp only [if_true]
      by_cases hp : r.1 = p
      · rw [List.find?_cons_of_pos _ (by simp [hp]),
            List.find?_cons_of_pos _ (by simp [hp])]
      · rw [List.find?_cons_of_neg _ (by simp [hp]),
            List.find?_cons_of_neg _ (by simp [hp])]
        exact ih

/-- Claim C9: a successful `copy_script` writes a snapshot whose byte
content equals the source's content at copy time, and afterwards neither
rewriting the original source file with different bytes nor deleting the
original changes the snapshot's content (the snapshot and the source are
distinct paths). -/
theorem c9_snapshot_independent (fs fs' : FS) (file exp_dir cp : Str)
    (h : copy_script fs file exp_dir = (fs', Except.ok cp))
    (hne : cp ≠ file) :
    lookupFile fs' cp = lookupFile fs file
    ∧ (∀ newContent, lookupFile (writeFile fs' file newContent) cp
        = lookupFile fs' cp)
    ∧ lookupFile (deleteFile fs' file) cp = lookupFile fs' cp := by
  unfold copy_script at h
  cases hl : lookupFile fs file with
  | none => rw [hl] at h; simp at h
  | some content =>
    rw [hl] at h
    simp only [Prod.mk.injEq, Except.ok.injEq] at h
    obtain ⟨rfl, rfl⟩ := h
    refine ⟨?_, ?_, ?_⟩
    · simp only [lookupFile, writeFile]
      rw [List.find?_cons_of_pos _ (by simp)]
      simp
    · intro newContent
      simp only [lookupFile, writeFile]
      rw [List.find?_cons_of_neg _ (by
        simp only [beq_iff_eq]
        exact fun he => hne he.symm)]
    · simp only [lookupFile, deleteFile]
      rw [find?_filter_ne _ _ _ hne]

/-- Claim C9 witness: copying `s.py` with content `[1,2,3]` into slot 1. -/
theorem c9_snapshot_independent_witness :
    copy_script { files := [(str "s.py", [1, 2, 3])], dirs := [str "root/experiment_001"] }
        (str "s.py") (str "root/experiment_001")
      = ({ files := [(str "root/experiment_001/s_001.py", [1, 2, 3]),
                     (str "s.py", [1, 2, 3])],
           dirs := [str "root/experiment_001"] },
         Except.ok (str "root/experiment_001/s_001.py"))
    ∧ str "root/experiment_001/s_001.py" ≠ str "s.py"
    ∧ (lookupFile { files := [(str "root/experiment_001/s_001.py", [1, 2, 3]),
                              (str "s.py", [1, 2, 3])],
                    dirs := [str "root/experiment_001"] }
          (str "root/experiment_001/s_001.py")
        = lookupFile { files := [(str "s.py", [1, 2, 3])],
                       dirs := [str "root/experiment_001"] } (str "s.py")
      ∧ (∀ newContent,
          lookupFile (writeFile { files := [(str "root/experiment_001/s_001.py", [1, 2, 3]),
                                            (str "s.py", [1, 2, 3])],
                                  dirs := [str "root/experiment_001"] }
              (str "s.py") newContent) (str "root/experiment_001/s_001.py")
            = lookupFile { files := [(str "root/experiment_001/s_001.py", [1, 2, 3]),
                                     (str "s.py", [1, 2, 3])],
                           dirs := [str "root/experiment_001"] }
                (str "root/experiment_001/s_001.py"))
      ∧ lookupFile (deleteFile { files := [(str "root/experiment_001/s_001.py", [1, 2, 3]),
                                           (str "s.py", [1, 2, 3])],
                                 dirs := [str "root/experiment_001"] } (str "s.py"))
            (str "root/experiment_001/s_001.py")
          = lookupFile { files := [(str "root/experiment_001/s_001.py", [1, 2, 3]),
                                   (str "s.py", [1, 2, 3])],
                         dirs := [str "root/experiment_001"] }
              (str "root/experiment_001/s_001.py")) :=
  ⟨by decide, by decide,
   c9_snapshot_independent
     { files := [(str "s.py", [1, 2, 3])], dirs := [str "root/experiment_001"] }
     { files := [(str "root/experiment_001/s_001.py", [1, 2, 3]),
                 (str "s.py", [1, 2, 3])],
       dirs := [str "root/experiment_001"] }
     (str "s.py") (str "root/experiment_001")
     (str "root/experiment_001/s_001.py") (by decide) (by decide)⟩

theorem getVar_setVar_same (e : Env) (k v : Str) :
    getVar (setVar e k v) k = some v := by
  simp only [getVar, setVar]
  rw [List.find?_cons_of_pos _ (by simp)]
  rfl

theorem getVar_setVar_other (e : Env) (k v k' : Str) (h : k' ≠ k) :
    getVar (setVar e k v) k' = getVar e k' := by
  simp only [getVar, setVar]
  rw [List.find?_cons_of_neg _ (by
    simp only [beq_iff_eq]
    exact fun he => h he.symm)]

/-- Claim C7: in local mode, the child environment handed to the
subprocess is the inherited environment plus exactly the two overrides:
`LOG_DIR` reads as the run directory path, `LOG_FILE` as the run record
file path, and every other variable reads exactly as in the inherited
environment — no other variable is altered, added or removed. -/
theorem c7_local_env (a : Args) (d rs : Str) (sargs : List Str) (e : Env)
    (h : a.isLocal = true) :
    ∃ e1, (to_slurm a d rs sargs e).env = some e1
      ∧ getVar e1 (str "LOG_DIR") = some (logDirVal d)
      ∧ getVar e1 (str "LOG_FILE") = some (logFileVal d)
      ∧ ∀ k, k ≠ str "LOG_DIR" → k ≠ str "LOG_FILE"
          → getVar e1 k = getVar e k := by
  refine ⟨setVar (setVar e (str "LOG_DIR") (logDirVal d))
            (str "LOG_FILE") (logFileVal d), ?_, ?_, ?_, ?_⟩
  · simp [to_slurm, h]
  · rw [getVar_setVar_other _ _ _ _ (by decide)]
    exact getVar_setVar_same _ _ _
  · exact getVar_setVar_same _ _ _
  · intro k h1 h2
    rw [getVar_setVar_other _ _ _ _ h2, getVar_setVar_other _ _ _ _ h1]

/-- Claim C7 witness: local dispatch of slot 1 over an inherited
environment holding `PATH`. -/
theorem c7_local_env_witness :
    ({ file := str "s.py", log_dir := str "root", mem_per_cpu := 8,
       gpus := 0, isLocal := true } : Args).isLocal = true
    ∧ ∃ e1,
      (to_slurm { file := str "s.py", log_dir := str "root",
                  mem_per_cpu := 8, gpus := 0, isLocal := true }
          (str "root/experiment_001") (str "root/experiment_001/s_001.py")
          [] [(str "PATH", str "/bin")]).env = some e1
      ∧ getVar e1 (str "LOG_DIR") = some (logDirVal (str "root/experiment_001"))
      ∧ getVar e1 (str "LOG_FILE") = some (logFileVal (str "root/experiment_001"))
      ∧ ∀ k, k ≠ str "LOG_DIR" → k ≠ str "LOG_FILE"
          → getVar e1 k = getVar [(str "PATH", str "/bin")] k :=
  ⟨rfl,
   c7_local_env { file := str "s.py", log_dir := str "root",
                  mem_per_cpu := 8, gpus := 0, isLocal := true }
     (str "root/experiment_001") (str "root/experiment_001/s_001.py")
     [] [(str "PATH", str "/bin")] rfl⟩

/-- Claim C8: in scheduled mode with validated GPU count and memory
value, the constructed submission command carries a `--gpus=` flag whose
value is exactly the rendered GPU count, a `--mem-per-cpu=` flag whose
value is exactly the rendered memory value with its `G` unit suffix, a
job name built from the run identifier's zero-padded rendering, an output
path inside the run directory, and an export of `LOG_DIR` and `LOG_FILE`
pointing at the run directory and its record file. -/
theorem c8_scheduled_flags (a : Args) (root rs : Str) (n : Nat)
    (sargs : List Str) (e : Env)
    (hl : a.isLocal = false) (_hg : 0 ≤ a.gpus) (_hm : 0 < a.mem_per_cpu) :
    (str "--gpus=" ++ intChars a.gpus)
        ∈ (to_slurm a (expDirStr root n) rs sargs e).argv
    ∧ (str "--mem-per-cpu=" ++ intChars a.mem_per_cpu ++ str "G")
        ∈ (to_slurm a (expDirStr root n) rs sargs e).argv
    ∧ jobNameArg (expDirStr root n)
        ∈ (to_slurm a (expDirStr root n) rs sargs e).argv
    ∧ jobNameArg (expDirStr root n)
        = str "--job-name=jorb_" ++ pad3 (natChars n)
    ∧ outputArg (expDirStr root n)
        ∈ (to_slurm a (expDirStr root n) rs sargs e).argv
    ∧ outputArg (expDirStr root n)
        = str "--output=" ++ (expDirStr root n ++ str "/slurm_log.out")
    ∧ exportArg (expDirStr root n)
        ∈ (to_slurm a (expDirStr root n) rs sargs e).argv
    ∧ exportArg (expDirStr root n)
        = str "--export=ALL,LOG_DIR=" ++ logDirVal (expDirStr root n)
          ++ str ",LOG_FILE=" ++ logFileVal (expDirStr root n) := by
  refine ⟨by simp [to_slurm, hl], by simp [to_slurm, hl],
          by simp [to_slurm, hl], ?_,
          by simp [to_slurm, hl], by simp [outputArg, List.append_assoc],
          by simp [to_slurm, hl], ?_⟩
  · simp [jobNameArg, extractId_expDirStr]
  · simp [exportArg, logDirVal, logFileVal, List.append_assoc]

/-- Claim C8 witness: scheduled dispatch with 2 GPUs and 8G per CPU. -/
theorem c8_scheduled_flags_witness :
    ({ file := str "s.py", log_dir := str "root", mem_per_cpu := 8,
       gpus := 2, isLocal := false } : Args).isLocal = false
    ∧ (0 : Int) ≤ 2 ∧ (0 : Int) < 8
    ∧ (str "--gpus=" ++ intChars 2)
        ∈ (to_slurm { file := str "s.py", log_dir := str "root",
                      mem_per_cpu := 8, gpus := 2, isLocal := false }
            (expDirStr (str "root") 1) (str "root/experiment_001/s_001.py")
            [] []).argv
    ∧ (str "--mem-per-cpu=" ++ intChars 8 ++ str "G")
        ∈ (to_slurm { file := str "s.py", log_dir := str "root",
                      mem_per_cpu := 8, gpus := 2, isLocal := false }
            (expDirStr (str "root") 1) (str "root/experiment_001/s_001.py")
            [] []).argv :=
  ⟨rfl, by decide, by decide,
   (c8_scheduled_flags { file := str "s.py", log_dir := str "root",
                         mem_per_cpu := 8, gpus := 2, isLocal := false }
      (str "root") (str "root/experiment_001/s_001.py") 1 [] []
      rfl (by decide) (by decide)).1,
   (c8_scheduled_flags { file := str "s.py", log_dir := str "root",
                         mem_per_cpu := 8, gpus := 2, isLocal := false }
      (str "root") (str "root/experiment_001/s_001.py") 1 [] []
      rfl (by decide) (by decide)).2.1⟩

/-- Claim C10: in scheduled (non-local) mode, `to_slurm` passes
`env=None` to the subprocess launch, so the scheduler child inherits the
tracker's own environment completely unmodified; `LOG_DIR` and
`LOG_FILE` are conveyed only as text inside the `--export=ALL,...`
command argument, not as environment variables of the launched
subprocess. -/
theorem c10_scheduled_env_inherited (a : Args) (d rs : Str)
    (sargs : List Str) (e : Env) (h : a.isLocal = false) :
    (to_slurm a d rs sargs e).env = none
    ∧ exportArg d ∈ (to_slurm a d rs sargs e).argv
    ∧ exportArg d = str "--export=ALL,LOG_DIR=" ++ logDirVal d
        ++ str ",LOG_FILE=" ++ logFileVal d := by
  refine ⟨by simp [to_slurm, h], by simp [to_slurm, h],
          by simp [exportArg, logDirVal, logFileVal, List.append_assoc]⟩

/-- Claim C10 witness: scheduled dispatch of slot 1. -/
theorem c10_scheduled_env_inherited_witness :
    ({ file := str "s.py", log_dir := str "root", mem_per_cpu := 8,
       gpus := 0, isLocal := false } : Args).isLocal = false
    ∧ (to_slurm { file := str "s.py", log_dir := str "root",
                  mem_per_cpu := 8, gpus := 0, isLocal := false }
        (str "root/experiment_001") (str "root/experiment_001/s_001.py")
        [] [(str "PATH", str "/bin")]).env = none :=
  ⟨rfl,
   (c10_scheduled_env_inherited
      { file := str "s.py", log_dir := str "root",
        mem_per_cpu := 8, gpus := 0, isLocal := false }
      (str "root/experiment_001") (str "root/experiment_001/s_001.py")
      [] [(str "PATH", str "/bin")] rfl).1⟩
